import Mathlib

/-!
Verification of the routing and fusion core of a RAG + web-search assistant.

The embedding models the three agent functions (`route_query`, `query_rag`,
`search_web`, `query_hybrid`) from `src/agents/` as pure Lean functions over
an environment `Env` of oracle functions standing for the external
collaborators (vector store, Serper search API, chat LLM).  Calls that can
raise in Python are oracles returning `Except String`; each agent function
additionally returns the list of external calls it issued (`Event`), so that
properties of the form "no generation call is made" are statable.
Python-specific behaviours (`dict.get` with default, truthiness of strings
and of absent keys, `str.join`, `list(set(...))`) are embedded explicitly.
-/

set_option maxRecDepth 4096

namespace RagWeb

/-- A retrieved document chunk: `page_content` plus a string-keyed metadata
dict, as used by `doc.metadata.get("source", "Unknown")`. -/
structure Document where
  page_content : String
  metadata : List (String × String)
deriving DecidableEq

/-- One organic Serper result; each field may be absent in the JSON dict. -/
structure OrganicResult where
  title : Option String
  snippet : Option String
  link : Option String
deriving DecidableEq

/-- The optional `answerBox` block of a Serper response. -/
structure AnswerBox where
  answer : Option String
  snippet : Option String
deriving DecidableEq

/-- The optional `knowledgeGraph` block of a Serper response. -/
structure KnowledgeGraph where
  title : Option String
  description : Option String
deriving DecidableEq

/-- A Serper search response: `results.get("organic", [])` plus the two
optional blocks. -/
structure SearchResults where
  organic : List OrganicResult
  answerBox : Option AnswerBox
  knowledgeGraph : Option KnowledgeGraph
deriving DecidableEq

/-- External calls an agent function can issue. -/
inductive Event where
  | llmCall (prompt : String)
  | simSearch (query : String) (k : Nat)
  | webSearch (query : String)
deriving DecidableEq

/-- The external collaborators: vector store
(`get_document_count`, `get_all_sources`, `similarity_search`), the Serper
search call, and the chat model (`chain.invoke`, keyed by the filled prompt
text).  `similarity_search` and `serper_search` may raise. -/
structure Env where
  doc_count : Nat
  all_sources : List String
  similarity_search : String → Nat → Except String (List Document)
  serper_search : String → Except String SearchResults
  llm : String → String

/-- `TOP_K_RESULTS = 4` from `config.py`. -/
def TOP_K_RESULTS : Nat := 4

/-- Python `"sep".join(parts)`. -/
def pyJoin (sep : String) : List String → String
  | [] => ""
  | [p] => p
  | p :: q :: rest => p ++ sep ++ pyJoin sep (q :: rest)

/-- Python `a or b` for `a` an optional string (`None` and `""` are falsy). -/
def pyOrStr (a : Option String) (b : String) : String :=
  match a with
  | some s => if s = "" then b else s
  | none => b

/-- Python `list(set(l))` for strings: one representative per distinct
element.  CPython's iteration order over a set is unspecified; we fix the
order produced by `List.dedup`, which is irrelevant to every property proved
below (only membership and length are used). -/
def pyListSet (l : List String) : List String := l.dedup

/-- Python `s.strip()`: drop leading and trailing whitespace. -/
def pyStrip (s : String) : String :=
  ⟨((s.data.dropWhile Char.isWhitespace).reverse.dropWhile Char.isWhitespace).reverse⟩

/-- Python `s.lower()`, restricted to the ASCII mapping of `Char.toLower`
(the route labels involved are ASCII). -/
def pyLower (s : String) : String := ⟨s.data.map Char.toLower⟩

/-- `RAG_PROMPT_TEMPLATE` of `rag_agent.py`, already filled with its two
variables. -/
def RAG_PROMPT_TEMPLATE (context question : String) : String :=
  "You are a helpful AI assistant that answers questions based on the provided context from documents.\n\nContext from documents:\n"
    ++ context
    ++ "\n\nUser Question: " ++ question
    ++ "\n\nInstructions:\n1. Answer the question based ONLY on the provided context\n2. If the context doesn\x27t contain enough information to answer, say so clearly\n3. Cite which document/source the information comes from when relevant\n4. Be concise but thorough\n\nAnswer:"

/-- `WEB_SEARCH_PROMPT_TEMPLATE` of `web_search_agent.py`, filled. -/
def WEB_SEARCH_PROMPT_TEMPLATE (search_results question : String) : String :=
  "You are a helpful AI assistant that answers questions based on web search results.\n\nWeb Search Results:\n"
    ++ search_results
    ++ "\n\nUser Question: " ++ question
    ++ "\n\nInstructions:\n1. Synthesize the information from the search results to answer the question\n2. Cite sources by mentioning the website names when relevant\n3. If the search results don\x27t contain enough information, acknowledge the limitations\n4. Provide a comprehensive but concise answer\n\nAnswer:"

/-- `HYBRID_PROMPT_TEMPLATE` of `hybrid_agent.py`, filled. -/
def HYBRID_PROMPT_TEMPLATE (rag_context web_context question : String) : String :=
  "You are a helpful AI assistant that answers questions using both document knowledge and web search results.\n\nDocument Context (from uploaded documents):\n"
    ++ rag_context
    ++ "\n\nWeb Search Results:\n" ++ web_context
    ++ "\n\nUser Question: " ++ question
    ++ "\n\nInstructions:\n1. Synthesize information from BOTH the documents and web search results\n2. Prioritize document information for specific/local knowledge\n3. Use web search results for broader context or recent information\n4. Clearly indicate when information comes from documents vs. the web\n5. If there are conflicts between sources, acknowledge them\n6. Be comprehensive but concise\n\nAnswer:"

/-- `QUERY_ROUTER_PROMPT` of `hybrid_agent.py`, filled. -/
def QUERY_ROUTER_PROMPT (question has_documents document_sources : String) : String :=
  "Analyze this question and determine the best way to answer it.\n\nQuestion: "
    ++ question
    ++ "\n\nContext:\n- Documents available: " ++ has_documents
    ++ "\n- Types of documents: " ++ document_sources
    ++ "\n\nDetermine if this question is best answered by:\n1. \x22documents\x22 - if it\x27s about specific content in the uploaded documents\n2. \x22web\x22 - if it requires recent/external information not likely in documents\n3. \x22hybrid\x22 - if it could benefit from both document context and web information\n\nRespond with just one word: documents, web, or hybrid"

/-- Result dict of `query_rag`: keys `answer`, `sources`, `context`
(all three present on every return path). -/
structure RagResult where
  answer : String
  sources : List String
  context : String
deriving DecidableEq

/-- A web provenance entry, `{"title": ..., "url": ...}`. -/
structure WebSource where
  title : String
  url : String
deriving DecidableEq

/-- Result dict of `search_web`: keys `answer`, `sources`, `raw_results`
(all three present on every return path). -/
structure WebResult where
  answer : String
  sources : List WebSource
  raw_results : SearchResults
deriving DecidableEq

/-- `format_context` of `rag_agent.py`: number the chunks from 1, prefix each
with its source header, join with a newline. -/
def format_context (documents : List Document) : String :=
  pyJoin "\n" (documents.enum.map (fun p =>
    "[Document " ++ toString (p.1 + 1) ++ " - Source: "
      ++ ((p.2.metadata.lookup "source").getD "Unknown") ++ "]\n"
      ++ p.2.page_content ++ "\n"))

/-- `query_rag` of `rag_agent.py`.  The Python default `k=TOP_K_RESULTS` is
passed explicitly by callers here. -/
def query_rag (env : Env) (question : String) (k : Nat) :
    Except String (RagResult × List Event) :=
  if env.doc_count = 0 then
    .ok ({ answer := "No documents have been uploaded yet. Please upload some documents first to use RAG mode.",
           sources := [], context := "" }, [])
  else
    match env.similarity_search question k with
    | .error e => .error e
    | .ok retrieved_docs =>
      if retrieved_docs.isEmpty then
        .ok ({ answer := "I couldn\x27t find any relevant information in the uploaded documents to answer your question.",
               sources := [], context := "" }, [.simSearch question k])
      else
        let context := format_context retrieved_docs
        let prompt := RAG_PROMPT_TEMPLATE context question
        let response := env.llm prompt
        let sources := pyListSet (retrieved_docs.map
          (fun d => (d.metadata.lookup "source").getD "Unknown"))
        .ok ({ answer := response, sources := sources, context := context },
          [.simSearch question k, .llmCall prompt])

/-- The numbered `[Result i]` parts built by the organic-results loop of
`format_search_results`. -/
def organicParts (organic : List OrganicResult) : List String :=
  organic.enum.map (fun p =>
    "[Result " ++ toString (p.1 + 1) ++ "]\nTitle: " ++ (p.2.title.getD "No title")
      ++ "\nSnippet: " ++ (p.2.snippet.getD "No description")
      ++ "\nURL: " ++ (p.2.link.getD "") ++ "\n")

/-- The `[Featured Answer]` part contributed by a present `answerBox` dict:
`answer_box.get("answer") or answer_box.get("snippet", "")`, inserted only
when truthy. -/
def answerBoxPart (ab : AnswerBox) : List String :=
  let answer := pyOrStr ab.answer (ab.snippet.getD "")
  if answer ≠ "" then ["[Featured Answer]\n" ++ answer ++ "\n"] else []

/-- The `[Knowledge Graph]` part contributed by a present `knowledgeGraph`
dict, inserted only when `title or description` is truthy. -/
def knowledgeGraphPart (kg : KnowledgeGraph) : List String :=
  let title := kg.title.getD ""
  let description := kg.description.getD ""
  if title ≠ "" ∨ description ≠ "" then
    ["[Knowledge Graph]\nTitle: " ++ title ++ "\nDescription: " ++ description ++ "\n"]
  else []

/-- `format_search_results` of `web_search_agent.py`: build the organic
parts, then `insert(0, ...)` the featured answer, then `insert(0, ...)` the
knowledge graph; join with newlines, or the sentinel when no parts. -/
def format_search_results (results : SearchResults) : String :=
  let formatted_parts := organicParts results.organic
  let formatted_parts :=
    match results.answerBox with
    | some ab => answerBoxPart ab ++ formatted_parts
    | none => formatted_parts
  let formatted_parts :=
    match results.knowledgeGraph with
    | some kg => knowledgeGraphPart kg ++ formatted_parts
    | none => formatted_parts
  if formatted_parts ≠ [] then pyJoin "\n" formatted_parts
  else "No search results found."

/-- The featured-answer parts of a whole response (empty when `answerBox` is
absent or its text is falsy). -/
def featuredAnswerParts (results : SearchResults) : List String :=
  match results.answerBox with
  | some ab => answerBoxPart ab
  | none => []

/-- The knowledge-graph parts of a whole response (empty when
`knowledgeGraph` is absent or both its fields are falsy). -/
def knowledgeGraphParts (results : SearchResults) : List String :=
  match results.knowledgeGraph with
  | some kg => knowledgeGraphPart kg
  | none => []

/-- `extract_sources` of `web_search_agent.py`: title and link of every
organic result, in order. -/
def extract_sources (results : SearchResults) : List WebSource :=
  results.organic.map (fun r =>
    { title := r.title.getD "Unknown", url := r.link.getD "" })

/-- `search_web` of `web_search_agent.py`.  A Serper failure propagates (it
is not caught here); the sentinel short-circuits generation. -/
def search_web (env : Env) (question : String) :
    Except String (WebResult × List Event) :=
  match env.serper_search question with
  | .error e => .error e
  | .ok search_results =>
    let formatted_results := format_search_results search_results
    if formatted_results = "No search results found." then
      .ok ({ answer := "I couldn\x27t find any relevant web search results for your query.",
             sources := [], raw_results := search_results }, [.webSearch question])
    else
      let prompt := WEB_SEARCH_PROMPT_TEMPLATE formatted_results question
      let response := env.llm prompt
      .ok ({ answer := response, sources := extract_sources search_results,
             raw_results := search_results }, [.webSearch question, .llmCall prompt])

/-- `route_query` of `hybrid_agent.py`. -/
def route_query (env : Env) (question : String) : String × List Event :=
  let doc_count := env.doc_count
  let has_documents : Bool := decide (0 < doc_count)
  let sources := if has_documents then env.all_sources else []
  if !has_documents then ("web", [])
  else
    let prompt := QUERY_ROUTER_PROMPT question
      (if has_documents then "Yes" else "No")
      (if !sources.isEmpty then pyJoin ", " sources else "None")
    let response := env.llm prompt
    let route := pyLower (pyStrip response)
    if ["documents", "web", "hybrid"].contains route then (route, [.llmCall prompt])
    else ("hybrid", [.llmCall prompt])

/-- One typed provenance entry of the hybrid result. -/
inductive SourceEntry where
  | document (name : String)
  | web (title : String) (url : String)
deriving DecidableEq

/-- The three shapes the dict returned by `query_hybrid` can take. -/
inductive HybridOutcome where
  | documentsMode (r : RagResult)
  | webMode (r : WebResult)
  | hybridMode (answer : String) (sources : List SourceEntry)
      (rag_context : String) (web_results : SearchResults)
deriving DecidableEq

/-- The `mode` key of the returned dict. -/
def HybridOutcome.mode : HybridOutcome → String
  | .documentsMode _ => "documents"
  | .webMode _ => "web"
  | .hybridMode _ _ _ _ => "hybrid"

/-- Lines 128-180 of `hybrid_agent.py` (the fusion path reached after the
`auto_route` block falls through).  `rag_context` is read with
`rag_result.get("context", "No document context available.")` in Python, but
the `context` key is present on every path (the initial dict, every
`query_rag` return, and the except-handler all set it), so the `.get`
default is unreachable and the field access is exact; the same holds for
`web_result.get("answer", ...)` and `web_result.get("raw_results", {})`,
whose keys are likewise always present (`raw_results` is `{}` in the initial
dict, modelled as the empty `SearchResults`).  Events issued before an
exception inside a failing sub-call are not recorded (only success-path
traces are used in the theorems below). -/
def hybridCore (env : Env) (question : String) (doc_count : Nat)
    (ev0 : List Event) : HybridOutcome × List Event :=
  let init_rag : RagResult := { answer := "", sources := [], context := "" }
  let ragPair :=
    if 0 < doc_count then
      match query_rag env question TOP_K_RESULTS with
      | .ok (r, evs) => (r, evs)
      | .error e =>
        ({ init_rag with context := "Error retrieving from documents: " ++ e }, [])
    else (init_rag, [])
  let rag_result := ragPair.1
  let init_web : WebResult :=
    { answer := "", sources := [],
      raw_results := { organic := [], answerBox := none, knowledgeGraph := none } }
  let webPair :=
    match search_web env question with
    | .ok (r, evs) => (r, evs)
    | .error e => ({ init_web with answer := "Error searching web: " ++ e }, [])
  let web_result := webPair.1
  let rag_context := rag_result.context
  let web_context := web_result.answer
  let prompt := HYBRID_PROMPT_TEMPLATE rag_context web_context question
  let response := env.llm prompt
  let all_sources := rag_result.sources.map SourceEntry.document
    ++ web_result.sources.map (fun s => SourceEntry.web s.title s.url)
  (.hybridMode response all_sources rag_context web_result.raw_results,
    ev0 ++ ragPair.2 ++ webPair.2 ++ [.llmCall prompt])

/-- `query_hybrid` of `hybrid_agent.py`: when `auto_route` is set, a
`documents` or `web` routing decision delegates entirely (exceptions of the
delegate propagate); otherwise control falls through to the fusion path. -/
def query_hybrid (env : Env) (question : String) (auto_route : Bool) :
    Except String (HybridOutcome × List Event) :=
  let doc_count := env.doc_count
  match (if auto_route then some (route_query env question) else none) with
  | some routed =>
    let route := routed.1
    if route = "documents" then
      match query_rag env question TOP_K_RESULTS with
      | .error e => .error e
      | .ok (r, evs) => .ok (.documentsMode r, routed.2 ++ evs)
    else if route = "web" then
      match search_web env question with
      | .error e => .error e
      | .ok (r, evs) => .ok (.webMode r, routed.2 ++ evs)
    else .ok (hybridCore env question doc_count routed.2)
  | none => .ok (hybridCore env question doc_count [])

/-- The `mode` key of a `query_hybrid` result, when the call succeeded. -/
def resultMode : Except String (HybridOutcome × List Event) → Option String
  | .ok (o, _) => some o.mode
  | .error _ => none

/-- The provenance list of a fusion-path `query_hybrid` result. -/
def resultHybridSources : Except String (HybridOutcome × List Event) → List SourceEntry
  | .ok (.hybridMode _ s _ _, _) => s
  | _ => []

/-- The `rag_context` key of a fusion-path `query_hybrid` result. -/
def resultRagContext : Except String (HybridOutcome × List Event) → Option String
  | .ok (.hybridMode _ _ rc _, _) => some rc
  | _ => none

/-- The `web_results` key of a fusion-path `query_hybrid` result. -/
def resultWebResults : Except String (HybridOutcome × List Event) → Option SearchResults
  | .ok (.hybridMode _ _ _ wr, _) => some wr
  | _ => none

/-- The external calls issued by a successful `query_hybrid` run. -/
def resultEvents : Except String (HybridOutcome × List Event) → List Event
  | .ok (_, evs) => evs
  | .error _ => []

/-! Concrete fixtures used by witnesses and counterexamples. -/

/-- A Serper response with no organic results and no optional blocks. -/
def srEmpty : SearchResults := { organic := [], answerBox := none, knowledgeGraph := none }

/-- One concrete organic result. -/
def orgOne : OrganicResult := { title := some "T1", snippet := some "S1", link := some "u1" }

/-- A Serper response with a single organic result. -/
def srOne : SearchResults := { organic := [orgOne], answerBox := none, knowledgeGraph := none }

/-- A Serper response whose only content is a knowledge-graph block. -/
def srKG : SearchResults :=
  { organic := [], answerBox := none,
    knowledgeGraph := some { title := some "KG", description := some "D" } }

/-- A concrete document chunk from source `a.pdf`. -/
def docA : Document := { page_content := "alpha", metadata := [("source", "a.pdf")] }

/-- A concrete document chunk from source `b.txt`. -/
def docB : Document := { page_content := "beta", metadata := [("source", "b.txt")] }

/-- Environment with an empty vector store. -/
def envNoDocs : Env :=
  { doc_count := 0, all_sources := [],
    similarity_search := fun _ _ => .ok [],
    serper_search := fun _ => .ok srEmpty,
    llm := fun _ => "ans" }

/-- Environment with one document; the classifier answers `" Documents "`. -/
def envRoute : Env :=
  { doc_count := 1, all_sources := ["a.pdf"],
    similarity_search := fun _ _ => .ok [docA],
    serper_search := fun _ => .ok srOne,
    llm := fun _ => " Documents " }

/-- Environment with two documents and one organic web result. -/
def envBoth : Env :=
  { doc_count := 2, all_sources := ["a.pdf", "b.txt"],
    similarity_search := fun _ _ => .ok [docA, docB],
    serper_search := fun _ => .ok srOne,
    llm := fun _ => "ans" }

/-- Environment whose similarity search raises. -/
def envRagFail : Env :=
  { doc_count := 1, all_sources := ["a.pdf"],
    similarity_search := fun _ _ => .error "boom",
    serper_search := fun _ => .ok srOne,
    llm := fun _ => "ans" }

/-- Environment whose Serper call raises. -/
def envSerpFail : Env :=
  { doc_count := 1, all_sources := ["a.pdf"],
    similarity_search := fun _ _ => .ok [docA],
    serper_search := fun _ => .error "down",
    llm := fun _ => "ans" }

/-- Environment with documents indexed but an empty retrieval. -/
def envRagEmpty : Env :=
  { doc_count := 1, all_sources := ["a.pdf"],
    similarity_search := fun _ _ => .ok [],
    serper_search := fun _ => .ok srEmpty,
    llm := fun _ => "ans" }

/-- Environment with no documents and a knowledge-graph-only web response. -/
def envKGOnly : Env :=
  { doc_count := 0, all_sources := [],
    similarity_search := fun _ _ => .ok [],
    serper_search := fun _ => .ok srKG,
    llm := fun _ => "ans" }

/-! Shared helper lemmas. -/

/-- The head character of an appended string is the head of its first part. -/
lemma data_head_append (s t : String) (c : Char) (h : s.data.head? = some c) :
    (s ++ t).data.head? = some c := by
  show (s.data ++ t.data).head? = some c
  cases hd : s.data with
  | nil => rw [hd] at h; simp at h
  | cons a l =>
    rw [hd] at h
    simpa using h

/-- `pyJoin` starts with the head character shared by all its parts. -/
lemma pyJoin_data_head (sep : String) (c : Char) :
    ∀ parts : List String, parts ≠ [] →
      (∀ p ∈ parts, p.data.head? = some c) →
      (pyJoin sep parts).data.head? = some c
  | [], h, _ => absurd rfl h
  | [p], _, hall => hall p (by simp)
  | p :: q :: rest, _, hall => by
    have hp : p.data.head? = some c := hall p (by simp)
    show ((p ++ sep) ++ pyJoin sep (q :: rest)).data.head? = some c
    exact data_head_append _ _ _ (data_head_append _ _ _ hp)

/-- Every numbered organic part starts with an opening bracket. -/
lemma organicParts_mem_head (organic : List OrganicResult) :
    ∀ p ∈ organicParts organic, p.data.head? = some '[' := by
  intro p hp
  simp only [organicParts, List.mem_map] at hp
  obtain ⟨x, _, rfl⟩ := hp
  repeat apply data_head_append
  decide

/-- A featured-answer part starts with an opening bracket. -/
lemma answerBoxPart_mem_head (ab : AnswerBox) :
    ∀ p ∈ answerBoxPart ab, p.data.head? = some '[' := by
  intro p hp
  simp only [answerBoxPart] at hp
  split at hp
  · simp only [List.mem_singleton] at hp
    subst hp
    repeat apply data_head_append
    decide
  · simp at hp

/-- A knowledge-graph part starts with an opening bracket. -/
lemma knowledgeGraphPart_mem_head (kg : KnowledgeGraph) :
    ∀ p ∈ knowledgeGraphPart kg, p.data.head? = some '[' := by
  intro p hp
  simp only [knowledgeGraphPart] at hp
  split at hp
  · simp only [List.mem_singleton] at hp
    subst hp
    repeat apply data_head_append
    decide
  · simp at hp

/-- `format_search_results` assembles knowledge graph, then featured answer,
then the numbered organic parts. -/
lemma format_search_results_eq (sr : SearchResults) :
    format_search_results sr =
      (if (knowledgeGraphParts sr ++ featuredAnswerParts sr ++ organicParts sr.organic) ≠ [] then
        pyJoin "\n" (knowledgeGraphParts sr ++ featuredAnswerParts sr ++ organicParts sr.organic)
       else "No search results found.") := by
  obtain ⟨org, ab, kg⟩ := sr
  cases ab <;> cases kg <;>
    simp [format_search_results, featuredAnswerParts, knowledgeGraphParts, List.append_assoc]

/-- Every part of the assembled list starts with an opening bracket. -/
lemma format_parts_head (sr : SearchResults) :
    ∀ p ∈ knowledgeGraphParts sr ++ featuredAnswerParts sr ++ organicParts sr.organic,
      p.data.head? = some '[' := by
  intro p hp
  rcases List.mem_append.mp hp with hp' | horg
  · rcases List.mem_append.mp hp' with hkg | hab
    · unfold knowledgeGraphParts at hkg
      cases hk : sr.knowledgeGraph with
      | none => rw [hk] at hkg; simp at hkg
      | some kg => rw [hk] at hkg; exact knowledgeGraphPart_mem_head kg p hkg
    · unfold featuredAnswerParts at hab
      cases ha : sr.answerBox with
      | none => rw [ha] at hab; simp at hab
      | some ab => rw [ha] at hab; exact answerBoxPart_mem_head ab p hab
  · exact organicParts_mem_head sr.organic p horg

/-- The organic parts are empty exactly when there are no organic results. -/
lemma organicParts_eq_nil (org : List OrganicResult) :
    organicParts org = [] ↔ org = [] := by
  cases org <;> simp [organicParts, List.enum_cons]

/-- The formatted context is the sentinel exactly when there are no organic
results, no usable featured answer and no usable knowledge graph. -/
lemma format_sentinel_iff (sr : SearchResults) :
    format_search_results sr = "No search results found." ↔
      sr.organic = [] ∧ featuredAnswerParts sr = [] ∧ knowledgeGraphParts sr = [] := by
  rw [format_search_results_eq]
  by_cases hp : (knowledgeGraphParts sr ++ featuredAnswerParts sr ++ organicParts sr.organic) = []
  · rw [if_neg (by simp [hp])]
    have := List.append_eq_nil.mp hp
    have h2 := List.append_eq_nil.mp this.1
    simp [h2.1, h2.2, this.2, (organicParts_eq_nil sr.organic).mp this.2]
  · rw [if_pos hp]
    constructor
    · intro h
      have hh := pyJoin_data_head "\n" '[' _ hp (format_parts_head sr)
      rw [h] at hh
      exact absurd hh (by decide)
    · rintro ⟨h1, h2, h3⟩
      exact absurd (by simp [h1, h2, h3, organicParts]) hp

/-- No organic results means no extracted web sources. -/
lemma extract_sources_eq_nil (sr : SearchResults) (h : sr.organic = []) :
    extract_sources sr = [] := by
  simp [extract_sources, h]

/-- The number of deduplicated names is the number of distinct names. -/
lemma pyListSet_length (l : List String) :
    (pyListSet l).length = l.toFinset.card := by
  simp [pyListSet, List.card_toFinset]

/-- `extract_sources` yields one entry per organic result. -/
lemma extract_sources_length (sr : SearchResults) :
    (extract_sources sr).length = sr.organic.length := by
  simp [extract_sources]

/-- A successful `search_web` never issues a similarity-search call. -/
lemma search_web_no_simSearch (env : Env) (q : String) (r : WebResult)
    (evs : List Event) (h : search_web env q = .ok (r, evs)) :
    ∀ s k, Event.simSearch s k ∉ evs := by
  intro s k
  unfold search_web at h
  cases hs : env.serper_search q with
  | error e => rw [hs] at h; simp at h
  | ok sr =>
    rw [hs] at h
    dsimp only at h
    split at h <;>
      (simp only [Except.ok.injEq, Prod.mk.injEq] at h
       rcases h with ⟨-, h2⟩
       subst h2
       simp)

/-- Label validation: membership in the three-label list agrees with the
three-way disjunction on the returned component. -/
lemma route_validate (route : String) (tr : List Event) :
    (if ["documents", "web", "hybrid"].contains route then (route, tr)
     else ("hybrid", tr)).1 =
      (if route = "documents" ∨ route = "web" ∨ route = "hybrid" then route
       else "hybrid") := by
  by_cases hm : route = "documents" ∨ route = "web" ∨ route = "hybrid"
  · rw [if_pos (by simpa using hm), if_pos hm]
  · rw [if_neg (by simpa using hm), if_neg hm]

/-! Claim theorems. -/

/-- Claim C1: for every question, when the vector store document count is
zero, `route_query` returns the label `web` and issues no LLM classification
call (its event trace is empty, so no generator is constructed or invoked). -/
theorem claim_C1_route_query_no_docs (env : Env) (question : String)
    (h : env.doc_count = 0) :
    route_query env question = ("web", []) := by
  simp [route_query, h]

/-- Witness for C1 at a concrete empty-store environment. -/
theorem claim_C1_witness : route_query envNoDocs "q" = ("web", []) :=
  claim_C1_route_query_no_docs envNoDocs "q" rfl

/-- Claim C2: with documents present, the classification response is
stripped and lowercased; when the normalized string is one of `documents`,
`web`, `hybrid` that label is returned verbatim, and any other normalized
string yields `hybrid`. -/
theorem claim_C2_route_query_normalizes (env : Env) (question : String)
    (h : 0 < env.doc_count) :
    (route_query env question).1 =
      (let response := env.llm (QUERY_ROUTER_PROMPT question "Yes"
        (if !env.all_sources.isEmpty then pyJoin ", " env.all_sources else "None"))
       let route := pyLower (pyStrip response)
       if route = "documents" ∨ route = "web" ∨ route = "hybrid" then route
       else "hybrid") := by
  have hd : decide (0 < env.doc_count) = true := decide_eq_true h
  simp only [route_query, hd, Bool.not_true, Bool.false_eq_true, if_false,
    eq_self_iff_true, if_true]
  exact route_validate _ _

/-- Witness for C2: a classifier answering `" Documents "` routes to
`documents`. -/
theorem claim_C2_witness :
    (route_query envRoute "q").1 =
      (let response := envRoute.llm (QUERY_ROUTER_PROMPT "q" "Yes"
        (if !envRoute.all_sources.isEmpty then pyJoin ", " envRoute.all_sources else "None"))
       let route := pyLower (pyStrip response)
       if route = "documents" ∨ route = "web" ∨ route = "hybrid" then route
       else "hybrid") :=
  claim_C2_route_query_normalizes envRoute "q" (by decide)

/-- Claim C7: `query_rag` on an empty index returns the fixed
no-documents fallback with empty sources and context and an empty call
trace (no similarity search, no generation); on a non-empty index whose
retrieval comes back empty it returns the second fixed fallback having
issued only the similarity-search call, again without generation. -/
theorem claim_C7_query_rag_fallbacks (env1 env2 : Env) (question : String) (k : Nat)
    (h1 : env1.doc_count = 0)
    (h2 : 0 < env2.doc_count)
    (h2s : env2.similarity_search question k = .ok []) :
    query_rag env1 question k =
      .ok ({ answer := "No documents have been uploaded yet. Please upload some documents first to use RAG mode.",
             sources := [], context := "" }, [])
    ∧ query_rag env2 question k =
      .ok ({ answer := "I couldn\x27t find any relevant information in the uploaded documents to answer your question.",
             sources := [], context := "" }, [.simSearch question k])
    ∧ (∀ p, Event.llmCall p ∉ ([] : List Event))
    ∧ (∀ p, Event.llmCall p ∉ [Event.simSearch question k]) := by
  refine ⟨by simp [query_rag, h1], ?_, by simp, by simp⟩
  have h2' : env2.doc_count ≠ 0 := by omega
  simp [query_rag, h2', h2s]

/-- Witness for C7 at concrete empty-store and empty-retrieval
environments. -/
theorem claim_C7_witness :
    query_rag envNoDocs "q" 4 =
      .ok ({ answer := "No documents have been uploaded yet. Please upload some documents first to use RAG mode.",
             sources := [], context := "" }, [])
    ∧ query_rag envRagEmpty "q" 4 =
      .ok ({ answer := "I couldn\x27t find any relevant information in the uploaded documents to answer your question.",
             sources := [], context := "" }, [.simSearch "q" 4])
    ∧ (∀ p, Event.llmCall p ∉ ([] : List Event))
    ∧ (∀ p, Event.llmCall p ∉ [Event.simSearch "q" 4]) :=
  claim_C7_query_rag_fallbacks envNoDocs envRagEmpty "q" 4 rfl (by decide) rfl

/-- Claim C8: when the formatted search context is the literal sentinel,
`search_web` returns the fixed no-results fallback with an empty sources
list, and its trace holds no generation call. -/
theorem claim_C8_sentinel_skips_generation (env : Env) (question : String)
    (sr : SearchResults)
    (hs : env.serper_search question = .ok sr)
    (hf : format_search_results sr = "No search results found.") :
    search_web env question =
      .ok ({ answer := "I couldn\x27t find any relevant web search results for your query.",
             sources := [], raw_results := sr }, [.webSearch question])
    ∧ (∀ p, Event.llmCall p ∉ [Event.webSearch question]) := by
  refine ⟨?_, by simp⟩
  simp [search_web, hs, hf]

/-- Witness for C8 at a concrete empty search response. -/
theorem claim_C8_witness :
    search_web envNoDocs "q" =
      .ok ({ answer := "I couldn\x27t find any relevant web search results for your query.",
             sources := [], raw_results := srEmpty }, [.webSearch "q"])
    ∧ (∀ p, Event.llmCall p ∉ [Event.webSearch "q"]) :=
  claim_C8_sentinel_skips_generation envNoDocs "q" srEmpty rfl (by decide)

/-- Claim C9: the formatted context lists the knowledge-graph block first
(when usable), then the featured answer (when usable), then the numbered
organic results in return order; and it equals the sentinel exactly when
there are no organic results, no usable featured answer and no usable
knowledge-graph block. -/
theorem claim_C9_format_order_and_sentinel (sr : SearchResults) :
    format_search_results sr =
      (if (knowledgeGraphParts sr ++ featuredAnswerParts sr ++ organicParts sr.organic) ≠ [] then
        pyJoin "\n" (knowledgeGraphParts sr ++ featuredAnswerParts sr ++ organicParts sr.organic)
       else "No search results found.")
    ∧ (format_search_results sr = "No search results found." ↔
        sr.organic = [] ∧ featuredAnswerParts sr = [] ∧ knowledgeGraphParts sr = []) :=
  ⟨format_search_results_eq sr, format_sentinel_iff sr⟩

/-- Claim C10: a response with no organic results but a usable
featured-answer or knowledge-graph block does not collapse to the sentinel,
so `search_web` invokes generation, yet returns an empty provenance list. -/
theorem claim_C10_block_only_no_provenance (env : Env) (question : String)
    (sr : SearchResults)
    (hs : env.serper_search question = .ok sr)
    (horg : sr.organic = [])
    (hblock : featuredAnswerParts sr ≠ [] ∨ knowledgeGraphParts sr ≠ []) :
    format_search_results sr ≠ "No search results found."
    ∧ search_web env question =
        .ok ({ answer := env.llm (WEB_SEARCH_PROMPT_TEMPLATE (format_search_results sr) question),
               sources := [], raw_results := sr },
          [.webSearch question,
           .llmCall (WEB_SEARCH_PROMPT_TEMPLATE (format_search_results sr) question)]) := by
  have hns : format_search_results sr ≠ "No search results found." := by
    intro hsent
    rcases (format_sentinel_iff sr).mp hsent with ⟨h1, h2, h3⟩
    rcases hblock with hb | hb
    · exact hb h2
    · exact hb h3
  refine ⟨hns, ?_⟩
  simp [search_web, hs, hns, extract_sources_eq_nil sr horg]

/-- Witness for C10 at a knowledge-graph-only response. -/
theorem claim_C10_witness :
    format_search_results srKG ≠ "No search results found."
    ∧ search_web envKGOnly "q" =
        .ok ({ answer := envKGOnly.llm (WEB_SEARCH_PROMPT_TEMPLATE (format_search_results srKG) "q"),
               sources := [], raw_results := srKG },
          [.webSearch "q",
           .llmCall (WEB_SEARCH_PROMPT_TEMPLATE (format_search_results srKG) "q")]) :=
  claim_C10_block_only_no_provenance envKGOnly "q" srKG rfl rfl
    (Or.inr (by decide))

/-- Claim C3: on the fusion path with both retrievals succeeding, the
provenance is the document entries (one per distinct retrieved source name,
in the document group's own order) followed by the web entries (one per
organic result, in return order), appended without cross-group
deduplication; its length is the number of distinct document source names
plus the number of organic web results. -/
theorem claim_C3_hybrid_provenance (env : Env) (question : String)
    (docs : List Document) (sr : SearchResults)
    (hdc : 0 < env.doc_count)
    (hss : env.similarity_search question TOP_K_RESULTS = .ok docs)
    (hws : env.serper_search question = .ok sr) :
    resultMode (query_hybrid env question false) = some "hybrid"
    ∧ resultHybridSources (query_hybrid env question false) =
        (pyListSet (docs.map (fun d => (d.metadata.lookup "source").getD "Unknown"))).map
            SourceEntry.document
          ++ (extract_sources sr).map (fun s => SourceEntry.web s.title s.url)
    ∧ (resultHybridSources (query_hybrid env question false)).length =
        (docs.map (fun d => (d.metadata.lookup "source").getD "Unknown")).toFinset.card
          + sr.organic.length := by
  have hdc' : env.doc_count ≠ 0 := by omega
  have hrag : ∃ ans ctx evs, query_rag env question TOP_K_RESULTS =
      .ok ({ answer := ans,
             sources := pyListSet (docs.map
               (fun d => (d.metadata.lookup "source").getD "Unknown")),
             context := ctx }, evs) := by
    by_cases hd0 : docs.isEmpty
    · have hnil : docs = [] := by simpa [List.isEmpty_iff] using hd0
      subst hnil
      exact ⟨"I couldn\x27t find any relevant information in the uploaded documents to answer your question.",
        "", [.simSearch question TOP_K_RESULTS],
        by simp [query_rag, hdc', hss, pyListSet]⟩
    · exact ⟨env.llm (RAG_PROMPT_TEMPLATE (format_context docs) question),
        format_context docs,
        [.simSearch question TOP_K_RESULTS,
         .llmCall (RAG_PROMPT_TEMPLATE (format_context docs) question)],
        by simp [query_rag, hdc', hss, hd0]⟩
  have hweb : ∃ ans evs, search_web env question =
      .ok ({ answer := ans, sources := extract_sources sr, raw_results := sr }, evs) := by
    by_cases hsent : format_search_results sr = "No search results found."
    · have horg : sr.organic = [] := ((format_sentinel_iff sr).mp hsent).1
      exact ⟨"I couldn\x27t find any relevant web search results for your query.",
        [.webSearch question],
        by simp [search_web, hws, hsent, extract_sources_eq_nil sr horg]⟩
    · exact ⟨env.llm (WEB_SEARCH_PROMPT_TEMPLATE (format_search_results sr) question),
        [.webSearch question,
         .llmCall (WEB_SEARCH_PROMPT_TEMPLATE (format_search_results sr) question)],
        by simp [search_web, hws, hsent]⟩
  obtain ⟨ans1, ctx1, evs1, hrag⟩ := hrag
  obtain ⟨ans2, evs2, hweb⟩ := hweb
  refine ⟨?_, ?_, ?_⟩ <;>
    simp [query_hybrid, hybridCore, hdc, hrag, hweb, resultMode, resultHybridSources,
      HybridOutcome.mode, pyListSet_length, extract_sources_length]

/-- Witness for C3: two chunks from distinct sources and one organic web
result give provenance `a.pdf`, `b.txt`, then the web entry; length 2+1. -/
theorem claim_C3_witness :
    resultMode (query_hybrid envBoth "q" false) = some "hybrid"
    ∧ resultHybridSources (query_hybrid envBoth "q" false) =
        (pyListSet ([docA, docB].map (fun d => (d.metadata.lookup "source").getD "Unknown"))).map
            SourceEntry.document
          ++ (extract_sources srOne).map (fun s => SourceEntry.web s.title s.url)
    ∧ (resultHybridSources (query_hybrid envBoth "q" false)).length =
        ([docA, docB].map (fun d => (d.metadata.lookup "source").getD "Unknown")).toFinset.card
          + srOne.organic.length :=
  claim_C3_hybrid_provenance envBoth "q" [docA, docB] srOne (by decide) rfl rfl

/-- Claim C4: on the fusion path, a raised document retrieval is converted
to the explanatory context string, the web search still runs and succeeds,
the mode is still `hybrid`, and the web provenance entries are present. -/
theorem claim_C4_hybrid_rag_failure (env : Env) (question : String)
    (msg : String) (sr : SearchResults)
    (hdc : 0 < env.doc_count)
    (hss : env.similarity_search question TOP_K_RESULTS = .error msg)
    (hws : env.serper_search question = .ok sr)
    (horg : sr.organic ≠ []) :
    resultMode (query_hybrid env question false) = some "hybrid"
    ∧ resultRagContext (query_hybrid env question false) =
        some ("Error retrieving from documents: " ++ msg)
    ∧ resultHybridSources (query_hybrid env question false) =
        (extract_sources sr).map (fun s => SourceEntry.web s.title s.url)
    ∧ resultHybridSources (query_hybrid env question false) ≠ []
    ∧ Event.webSearch question ∈ resultEvents (query_hybrid env question false) := by
  have hdc' : env.doc_count ≠ 0 := by omega
  have hrag : query_rag env question TOP_K_RESULTS = .error msg := by
    simp [query_rag, hdc', hss]
  have hsent : format_search_results sr ≠ "No search results found." := by
    intro hs
    exact horg ((format_sentinel_iff sr).mp hs).1
  have hweb : search_web env question =
      .ok ({ answer := env.llm (WEB_SEARCH_PROMPT_TEMPLATE (format_search_results sr) question),
             sources := extract_sources sr, raw_results := sr },
        [.webSearch question,
         .llmCall (WEB_SEARCH_PROMPT_TEMPLATE (format_search_results sr) question)]) := by
    simp [search_web, hws, hsent]
  refine ⟨?_, ?_, ?_, ?_, ?_⟩ <;>
    simp [query_hybrid, hybridCore, hdc, hrag, hweb, resultMode, resultRagContext,
      resultHybridSources, resultEvents, HybridOutcome.mode, extract_sources, horg]

/-- Witness for C4 at a concrete failing retrieval and one organic result. -/
theorem claim_C4_witness :
    resultMode (query_hybrid envRagFail "q" false) = some "hybrid"
    ∧ resultRagContext (query_hybrid envRagFail "q" false) =
        some ("Error retrieving from documents: " ++ "boom")
    ∧ resultHybridSources (query_hybrid envRagFail "q" false) =
        (extract_sources srOne).map (fun s => SourceEntry.web s.title s.url)
    ∧ resultHybridSources (query_hybrid envRagFail "q" false) ≠ []
    ∧ Event.webSearch "q" ∈ resultEvents (query_hybrid envRagFail "q" false) :=
  claim_C4_hybrid_rag_failure envRagFail "q" "boom" srOne (by decide) rfl rfl
    (by decide)

/-- Claim C5: a provenance list only cites evidence that was used: an empty
index or an empty retrieval gives `query_rag` an empty sources list, the
sentinel gives `search_web` an empty sources list, and on the fusion path a
failed document retrieval contributes no document entries while a failed
web search contributes no web entries. -/
theorem claim_C5_provenance_only_used
    (env1 env2 env3 env4 env5 : Env) (q : String) (k : Nat)
    (sr3 : SearchResults) (m4 m5 : String)
    (h1 : env1.doc_count = 0)
    (h2 : 0 < env2.doc_count) (h2s : env2.similarity_search q k = .ok [])
    (h3 : env3.serper_search q = .ok sr3)
    (h3f : format_search_results sr3 = "No search results found.")
    (h4 : 0 < env4.doc_count)
    (h4s : env4.similarity_search q TOP_K_RESULTS = .error m4)
    (h5 : env5.serper_search q = .error m5) :
    (∃ r, query_rag env1 q k = .ok r ∧ r.1.sources = [])
    ∧ (∃ r, query_rag env2 q k = .ok r ∧ r.1.sources = [])
    ∧ (∃ r, search_web env3 q = .ok r ∧ r.1.sources = [])
    ∧ (∀ n, SourceEntry.document n ∉ resultHybridSources (query_hybrid env4 q false))
    ∧ (∀ t u, SourceEntry.web t u ∉ resultHybridSources (query_hybrid env5 q false)) := by
  refine ⟨⟨({ answer := "No documents have been uploaded yet. Please upload some documents first to use RAG mode.",
              sources := [], context := "" }, []), by simp [query_rag, h1], rfl⟩, ?_, ?_, ?_, ?_⟩
  · have h2' : env2.doc_count ≠ 0 := by omega
    exact ⟨({ answer := "I couldn\x27t find any relevant information in the uploaded documents to answer your question.",
              sources := [], context := "" }, [.simSearch q k]),
      by simp [query_rag, h2', h2s], rfl⟩
  · exact ⟨({ answer := "I couldn\x27t find any relevant web search results for your query.",
              sources := [], raw_results := sr3 }, [.webSearch q]),
      by simp [search_web, h3, h3f], rfl⟩
  · have hdc' : env4.doc_count ≠ 0 := by omega
    have hrag : query_rag env4 q TOP_K_RESULTS = .error m4 := by
      simp [query_rag, hdc', h4s]
    intro n
    cases hw : search_web env4 q with
    | ok p =>
      obtain ⟨r, evs⟩ := p
      simp [query_hybrid, hybridCore, h4, hrag, hw, resultHybridSources]
    | error e =>
      simp [query_hybrid, hybridCore, h4, hrag, hw, resultHybridSources]
  · have hweb : search_web env5 q = .error m5 := by
      simp [search_web, h5]
    intro t u
    by_cases hdc : 0 < env5.doc_count
    · cases hr : query_rag env5 q TOP_K_RESULTS with
      | ok p =>
        obtain ⟨r, evs⟩ := p
        simp [query_hybrid, hybridCore, hdc, hr, hweb, resultHybridSources]
      | error e =>
        simp [query_hybrid, hybridCore, hdc, hr, hweb, resultHybridSources]
    · simp [query_hybrid, hybridCore, hdc, hweb, resultHybridSources]

/-- Witness for C5 at concrete environments covering all five scenarios. -/
theorem claim_C5_witness :
    (∃ r, query_rag envNoDocs "q" 4 = .ok r ∧ r.1.sources = [])
    ∧ (∃ r, query_rag envRagEmpty "q" 4 = .ok r ∧ r.1.sources = [])
    ∧ (∃ r, search_web envNoDocs "q" = .ok r ∧ r.1.sources = [])
    ∧ (∀ n, SourceEntry.document n ∉ resultHybridSources (query_hybrid envRagFail "q" false))
    ∧ (∀ t u, SourceEntry.web t u ∉ resultHybridSources (query_hybrid envSerpFail "q" false)) :=
  claim_C5_provenance_only_used envNoDocs envRagEmpty envNoDocs envRagFail envSerpFail
    "q" 4 srEmpty "boom" "down" rfl (by decide) rfl rfl (by decide) (by decide) rfl rfl

/-- Counterexample to claim C6 as stated: with an empty vector store on the
fusion path, the document-context variable handed to the fusion prompt is
the empty string, not the fixed `No document context available.`
placeholder (that `dict.get` default is unreachable because the `context`
key is always present). -/
theorem claim_C6_counterexample :
    resultRagContext (query_hybrid envNoDocs "q" false) = some ""
    ∧ resultEvents (query_hybrid envNoDocs "q" false) =
        [Event.webSearch "q",
         Event.llmCall (HYBRID_PROMPT_TEMPLATE ""
           "I couldn\x27t find any relevant web search results for your query." "q")]
    ∧ "" ≠ "No document context available."
    ∧ HYBRID_PROMPT_TEMPLATE ""
        "I couldn\x27t find any relevant web search results for your query." "q"
      ≠ HYBRID_PROMPT_TEMPLATE "No document context available."
        "I couldn\x27t find any relevant web search results for your query." "q" := by
  refine ⟨by decide, by decide, by decide, by decide⟩

/-- Claim C6 as amended: with an empty vector store on the fusion path,
document retrieval is never invoked (no similarity-search event occurs) and
the document-context variable passed to the fusion prompt is the empty
string, the initial `context` value. -/
theorem claim_C6_amended_no_docs_context (env : Env) (question : String)
    (h : env.doc_count = 0) :
    resultMode (query_hybrid env question false) = some "hybrid"
    ∧ resultRagContext (query_hybrid env question false) = some ""
    ∧ (∀ s k, Event.simSearch s k ∉ resultEvents (query_hybrid env question false))
    ∧ (∃ wc, Event.llmCall (HYBRID_PROMPT_TEMPLATE "" wc question) ∈
        resultEvents (query_hybrid env question false)) := by
  have hdc : ¬ 0 < env.doc_count := by omega
  cases hw : search_web env question with
  | ok p =>
    obtain ⟨r, evs⟩ := p
    have hnos := search_web_no_simSearch env question r evs hw
    refine ⟨?_, ?_, ?_, ⟨r.answer, ?_⟩⟩
    · simp [query_hybrid, hybridCore, hdc, hw, resultMode, HybridOutcome.mode]
    · simp [query_hybrid, hybridCore, hdc, hw, resultRagContext]
    · intro s k
      have hev : resultEvents (query_hybrid env question false) =
          evs ++ [Event.llmCall (HYBRID_PROMPT_TEMPLATE "" r.answer question)] := by
        simp [query_hybrid, hybridCore, hdc, hw, resultEvents]
      rw [hev]
      intro hmem
      rcases List.mem_append.mp hmem with hm | hm
      · exact hnos s k hm
      · simp at hm
    · simp [query_hybrid, hybridCore, hdc, hw, resultEvents]
  | error e =>
    refine ⟨?_, ?_, ?_, ⟨"Error searching web: " ++ e, ?_⟩⟩
    · simp [query_hybrid, hybridCore, hdc, hw, resultMode, HybridOutcome.mode]
    · simp [query_hybrid, hybridCore, hdc, hw, resultRagContext]
    · intro s k
      simp [query_hybrid, hybridCore, hdc, hw, resultEvents]
    · simp [query_hybrid, hybridCore, hdc, hw, resultEvents]

/-- Witness for the amended C6 at a concrete empty-store environment. -/
theorem claim_C6_amended_witness :
    resultMode (query_hybrid envNoDocs "q" false) = some "hybrid"
    ∧ resultRagContext (query_hybrid envNoDocs "q" false) = some ""
    ∧ (∀ s k, Event.simSearch s k ∉ resultEvents (query_hybrid envNoDocs "q" false))
    ∧ (∃ wc, Event.llmCall (HYBRID_PROMPT_TEMPLATE "" wc "q") ∈
        resultEvents (query_hybrid envNoDocs "q" false)) :=
  claim_C6_amended_no_docs_context envNoDocs "q" rfl

end RagWeb
